import Mathlib

/-!
Shallow embedding of the university-data HTTP service (server.js).

The service exposes five operations over one upstream catalog API:
`POST /search`, `GET /getUniversity`, `GET /getUniversityByName`,
`GET /getFields`, `POST /statistics`. Each handler validates its inputs,
builds the outbound query parameters (query translation), performs at most
one upstream call, and wraps the outcome in a `{success, data|error}`
envelope. We embed each handler as a pure function from its request inputs
and an upstream oracle (a function from outbound parameters to the upstream
outcome) to the pair of the HTTP response and the list of outbound calls
actually issued (so "rejects before any outbound call" is the list being
empty).

JavaScript scalars are modelled by `JValue`; JS numbers are modelled as
rationals (exact for every value the comparisons here touch); JS string
truthiness (`if (s)`) is non-emptiness; an absent (`undefined`) value is
`Option.none`; an `x || y` fallback on strings/numbers falls through on
`""`/`0`.
-/

namespace UniversityMCP

/-- A JavaScript scalar value as it appears in catalog records. -/
inductive JValue where
  | jstr (s : String)
  | jnum (n : Rat)
  | jbool (b : Bool)
  | jnull
deriving DecidableEq, Repr

/-- `typeof v` for the scalars we model (`typeof null` is `"object"`). -/
def JValue.typeof : JValue → String
  | .jstr _ => "string"
  | .jnum _ => "number"
  | .jbool _ => "boolean"
  | .jnull => "object"

/-- JS whitespace accepted (and trimmed) by `Number(string)`. -/
def jsWhitespace (c : Char) : Bool :=
  c = ' ' || c = '\t' || c = '\n' || c = '\r' || c = '\x0b' || c = '\x0c'

def decDigit (c : Char) : Bool := c.isDigit

def hexDigit (c : Char) : Bool :=
  c.isDigit || ('a' ≤ c && c ≤ 'f') || ('A' ≤ c && c ≤ 'F')

def octDigit (c : Char) : Bool := '0' ≤ c && c ≤ '7'

def binDigit (c : Char) : Bool := c = '0' || c = '1'

/-- One or more decimal digits and nothing else. -/
def allDigits1 (cs : List Char) : Bool := !cs.isEmpty && cs.all decDigit

/-- The optional exponent part that may follow the mantissa of a JS
string numeric literal: empty, or `e`/`E`, an optional sign, then digits. -/
def exponentTail (cs : List Char) : Bool :=
  match cs with
  | [] => true
  | c :: rest =>
    (c = 'e' || c = 'E') &&
      (match rest with
       | '+' :: ds => allDigits1 ds
       | '-' :: ds => allDigits1 ds
       | ds => allDigits1 ds)

/-- An unsigned JS decimal literal: `digits [. digits]` or `. digits`,
followed by an optional exponent. -/
def unsignedDecimal (cs : List Char) : Bool :=
  let intPart := cs.takeWhile decDigit
  let rest := cs.drop intPart.length
  match rest with
  | '.' :: rest2 =>
    let frac := rest2.takeWhile decDigit
    let rest3 := rest2.drop frac.length
    (!intPart.isEmpty || !frac.isEmpty) && exponentTail rest3
  | _ => !intPart.isEmpty && exponentTail rest

def infinityChars : List Char := ['I', 'n', 'f', 'i', 'n', 'i', 't', 'y']

/-- A JS decimal literal with an optional sign (also covers `Infinity`). -/
def signedDecimal (cs : List Char) : Bool :=
  match cs with
  | '+' :: rest => unsignedDecimal rest || rest == infinityChars
  | '-' :: rest => unsignedDecimal rest || rest == infinityChars
  | _ => unsignedDecimal cs || cs == infinityChars

/-- A JS non-decimal integer literal: `0x`/`0o`/`0b` radix forms (no sign). -/
def nonDecimalInt (cs : List Char) : Bool :=
  match cs with
  | '0' :: x :: rest =>
    ((x = 'x' || x = 'X') && !rest.isEmpty && rest.all hexDigit) ||
    ((x = 'o' || x = 'O') && !rest.isEmpty && rest.all octDigit) ||
    ((x = 'b' || x = 'B') && !rest.isEmpty && rest.all binDigit)
  | _ => false

/-- Models `!isNaN(Number(s))` for a string `s`: trim JS whitespace, then
accept the empty string (`Number("")` is `0`), a signed decimal literal,
`Infinity`, or a radix-prefixed integer literal. -/
def jsStringIsNumeric (s : String) : Bool :=
  let cs := ((s.data.dropWhile jsWhitespace).reverse.dropWhile jsWhitespace).reverse
  cs.isEmpty || signedDecimal cs || nonDecimalInt cs

/-- Models `!isNaN(Number(v))` for a scalar `v`: `Number` of a boolean or
`null` is `0`/`1` (never NaN), a number stays itself, and a string goes
through the string-to-number grammar. -/
def jsValueIsNumeric : JValue → Bool
  | .jstr s => jsStringIsNumeric s
  | .jnum _ => true
  | .jbool _ => true
  | .jnull => true

/-- `small.isPrefixOfChars big`: the first list starts the second. -/
def startsWithChars : List Char → List Char → Bool
  | [], _ => true
  | _ :: _, [] => false
  | a :: as, b :: bs => a == b && startsWithChars as bs

/-- Substring containment on character lists. -/
def containsChars (needle : List Char) : List Char → Bool
  | [] => needle.isEmpty
  | b :: bs => startsWithChars needle (b :: bs) || containsChars needle bs

/-- Models `hay.includes(needle)` on JS strings. -/
def strContains (hay needle : String) : Bool := containsChars needle.data hay.data

/-- Models `key.replace(/_/g, ' ')` (the pattern is a single character, so
global replacement is a character map). -/
def underscoresToSpaces (s : String) : String :=
  String.mk (s.data.map (fun c => if c = '_' then ' ' else c))

/-- One catalog record: an ordered mapping of field name to scalar value. -/
abbrev Record := List (String × JValue)

/-- The upstream response payload `{total_count, results}`; `results` may be
absent (`response.data.results` is guarded by a truthiness check). -/
structure UpstreamData where
  total_count : Int
  results : Option (List Record)
deriving DecidableEq

/-- What the handler can observe on a thrown upstream error:
`error.response?.status` and `error.response?.data?.message`. -/
structure UpstreamError where
  respStatus : Option Nat
  respMessage : Option String
deriving DecidableEq

/-- Outcome of the single outbound `axios.get` call. -/
inductive UpstreamOutcome where
  | ok (data : UpstreamData)
  | err (e : UpstreamError)

/-- JS `o || d` on an optional string: falls through when absent or `""`. -/
def jsOrStr (o : Option String) (d : String) : String :=
  match o with
  | some s => if s = "" then d else s
  | none => d

/-- JS `o || d` on an optional number: falls through when absent or `0`. -/
def jsOrNat (o : Option Nat) (d : Nat) : Nat :=
  match o with
  | some n => if n = 0 then d else n
  | none => d

/-- JS truthiness of a possibly-absent string: present and non-empty. -/
def jsTruthy (o : Option String) : Bool := o.getD "" != ""

/-- Models `array.join(' AND ')`. -/
def joinAnd : List String → String
  | [] => ""
  | [c] => c
  | c :: rest => c ++ " AND " ++ joinAnd rest

/-- Models `array.join(', ')`. -/
def joinComma : List String → String
  | [] => ""
  | [c] => c
  | c :: rest => c ++ ", " ++ joinComma rest

/-- A field descriptor produced by `GET /getFields`. -/
structure FieldDescriptor where
  name : String
  type : String
  description : String
deriving DecidableEq, Repr

/-- Echo of the search inputs inside the search metadata. -/
structure QueryParametersEcho where
  query : String
  state : String
  city : String
deriving DecidableEq, Repr

/-- The search metadata `{total, offset, limit, query_parameters}`. -/
structure SearchMetadata where
  total : Int
  offset : Rat
  limit : Rat
  query_parameters : QueryParametersEcho
deriving DecidableEq

/-- A statistics filter value: JSON strings are quoted in the where clause
(`typeof value === 'string'`), numbers are rendered bare. -/
inductive FilterValue where
  | fstr (s : String)
  | fnum (n : Int)
deriving DecidableEq, Repr

/-- The statistics metadata `{field, aggregation, groupBy, filter}`,
echoing the raw request values. -/
structure StatisticsMetadata where
  field : Option String
  aggregation : Option String
  groupBy : Option String
  filter : Option (List (String × FilterValue))
deriving DecidableEq

/-- A response body: either the failure envelope
`{success: false, error: {message, status}}` (built by `formatError`), or
one of the success envelopes `{success: true, data, metadata?}`. -/
inductive ResponseBody where
  | failure (message : String) (status : Nat)
  | searchSuccess (data : UpstreamData) (metadata : SearchMetadata)
  | recordSuccess (data : Record)
  | fieldsSuccess (data : List FieldDescriptor)
  | statsSuccess (data : UpstreamData) (metadata : StatisticsMetadata)
deriving DecidableEq

/-- The server's `formatError(message, status)` helper; the JS default
`status = 400` is passed explicitly at the call sites that rely on it. -/
def formatError (message : String) (status : Nat) : ResponseBody :=
  .failure message status

/-- The HTTP reply: the status code set via `res.status(...)` (200 for a
plain `res.json`) and the JSON body. -/
structure HttpResponse where
  status : Nat
  body : ResponseBody
deriving DecidableEq

/-! ### POST /search -/

/-- The raw JSON body of a search request; `none` is an absent property
(destructuring defaults `query = ''`, `state = ''`, `city = ''`,
`limit = 10`, `offset = 0` are applied inside the handler). -/
structure SearchBody where
  query : Option String
  state : Option String
  city : Option String
  limit : Option Rat
  offset : Option Rat

/-- The outbound query parameters of the search call: `where` is dropped
from the request when `undefined`, and `q` is only added when `query` is
truthy, so both are `Option`s. -/
structure SearchParams where
  limit : Rat
  offset : Rat
  where_ : Option String
  q : Option String
deriving DecidableEq

/-- Builds the outbound search parameters: push a `state = '<state>'`
clause if `state` is truthy, then a `city = '<city>'` clause if `city` is
truthy; `where` is their `' AND '` join when any clause exists, else
absent; `q` is added exactly when `query` is truthy. -/
def buildSearchParams (query state city : String) (limit offset : Rat) : SearchParams :=
  let whereClause : List String :=
    (if state ≠ "" then ["state = '" ++ state ++ "'"] else []) ++
    (if city ≠ "" then ["city = '" ++ city ++ "'"] else [])
  { limit := limit,
    offset := offset,
    where_ := if whereClause.length > 0 then some (joinAnd whereClause) else none,
    q := if query ≠ "" then some query else none }

/-- The `POST /search` handler. Returns the HTTP response together with
the list of outbound upstream calls issued. -/
def searchHandler (body : SearchBody) (upstream : SearchParams → UpstreamOutcome) :
    HttpResponse × List SearchParams :=
  let query := body.query.getD ""
  let state := body.state.getD ""
  let city := body.city.getD ""
  let limit := body.limit.getD 10
  let offset := body.offset.getD 0
  if limit > 100 then
    (⟨400, formatError "Limit cannot exceed 100" 400⟩, [])
  else
    let params := buildSearchParams query state city limit offset
    match upstream params with
    | .ok d =>
      (⟨200, .searchSuccess d ⟨d.total_count, offset, limit, ⟨query, state, city⟩⟩⟩, [params])
    | .err e =>
      (⟨500, formatError (jsOrStr e.respMessage "Failed to search universities")
                         (jsOrNat e.respStatus 500)⟩, [params])

/-! ### GET /getUniversity and GET /getUniversityByName -/

/-- The outbound parameters of a singular lookup: a `where` clause and
`limit: 1`. -/
structure LookupParams where
  where_ : String
  limit : Rat
deriving DecidableEq

/-- The `GET /getUniversity` handler (lookup by `objectid`). Its catch
block special-cases an upstream throw whose `error.response?.status` is
exactly 404. -/
def getUniversityHandler (id : Option String) (upstream : LookupParams → UpstreamOutcome) :
    HttpResponse × List LookupParams :=
  if !jsTruthy id then
    (⟨400, formatError "University ID is required" 400⟩, [])
  else
    let i := id.getD ""
    let params : LookupParams := ⟨"objectid = '" ++ i ++ "'", 1⟩
    match upstream params with
    | .ok d =>
      match d.results with
      | some (r :: _) => (⟨200, .recordSuccess r⟩, [params])
      | _ => (⟨404, formatError "University not found" 404⟩, [params])
    | .err e =>
      if e.respStatus = some 404 then
        (⟨404, formatError "University not found" 404⟩, [params])
      else
        (⟨500, formatError (jsOrStr e.respMessage "Failed to fetch university details")
                           (jsOrNat e.respStatus 500)⟩, [params])

/-- The `GET /getUniversityByName` handler (lookup by `name`); its catch
block has no 404 special case. -/
def getUniversityByNameHandler (name : Option String)
    (upstream : LookupParams → UpstreamOutcome) :
    HttpResponse × List LookupParams :=
  if !jsTruthy name then
    (⟨400, formatError "University name is required" 400⟩, [])
  else
    let n := name.getD ""
    let params : LookupParams := ⟨"name = '" ++ n ++ "'", 1⟩
    match upstream params with
    | .ok d =>
      match d.results with
      | some (r :: _) => (⟨200, .recordSuccess r⟩, [params])
      | _ => (⟨404, formatError "University not found" 404⟩, [params])
    | .err e =>
      (⟨500, formatError (jsOrStr e.respMessage "Failed to fetch university details")
                         (jsOrNat e.respStatus 500)⟩, [params])

/-! ### GET /getFields -/

/-- Field-descriptor inference for one sample-record entry: start from the
runtime `typeof`, override to `date` when the key contains `date` or
`time`, else to `number` when `Number(value)` is not NaN; the description
replaces underscores with spaces. -/
def inferField (key : String) (v : JValue) : FieldDescriptor :=
  let t :=
    if strContains key "date" || strContains key "time" then "date"
    else if jsValueIsNumeric v then "number"
    else v.typeof
  { name := key, type := t, description := underscoresToSpaces key }

/-- `Object.keys(sampleRecord).map(...)`: one descriptor per key of the
sample record, in order. -/
def extractFields (sample : Record) : List FieldDescriptor :=
  sample.map (fun kv => inferField kv.1 kv.2)

/-- The `GET /getFields` handler, given the outcome of its fixed
`{limit: 1}` sampling call. A successful call with no sample record throws
a local `Error`, which the catch block turns into the generic 500 failure
(a local `Error` has no `response`). -/
def getFieldsHandler (outcome : UpstreamOutcome) : HttpResponse :=
  match outcome with
  | .ok d =>
    match d.results with
    | some (r :: _) => ⟨200, .fieldsSuccess (extractFields r)⟩
    | _ => ⟨500, formatError "Failed to fetch dataset fields" 500⟩
  | .err e =>
    ⟨500, formatError (jsOrStr e.respMessage "Failed to fetch dataset fields")
                      (jsOrNat e.respStatus 500)⟩

/-! ### POST /statistics -/

/-- The raw JSON body of a statistics request. -/
structure StatsBody where
  field : Option String
  aggregation : Option String
  groupBy : Option String
  filter : Option (List (String × FilterValue))

/-- The outbound query parameters of the statistics call; `group_by` and
`where` are added only when truthy. -/
structure StatsParams where
  select : String
  group_by : Option String
  where_ : Option String
deriving DecidableEq

/-- The allow-list checked against `aggregation`. -/
def validAggregations : List String := ["count", "sum", "avg", "min", "max"]

/-- One `<key> = <value>` clause of the statistics filter: string values
are quoted, numeric values are bare. -/
def renderFilterEntry : String × FilterValue → String
  | (key, .fstr v) => key ++ " = '" ++ v ++ "'"
  | (key, .fnum v) => key ++ " = " ++ toString v

/-- Builds the outbound statistics parameters once validation has passed:
`select` is `count(*) as count` for `count` and otherwise
`<agg>(int(<field>)) as <alias>` with alias `average` for `avg`, else the
aggregation name; `where` is the `' AND '` join of the filter clauses when
the filter is present and non-empty; `group_by` is added when truthy. -/
def buildStatsParams (field aggregation : String) (groupBy : Option String)
    (filter : Option (List (String × FilterValue))) : StatsParams :=
  let selectClause :=
    if aggregation = "count" then "count(*) as count"
    else aggregation ++ "(int(" ++ field ++ ")) as " ++
         (if aggregation = "avg" then "average" else aggregation)
  let whereClause :=
    match filter with
    | some entries =>
      if entries.length > 0 then joinAnd (entries.map renderFilterEntry) else ""
    | none => ""
  { select := selectClause,
    group_by := if jsTruthy groupBy then groupBy else none,
    where_ := if whereClause = "" then none else some whereClause }

/-- The `POST /statistics` handler. -/
def statisticsHandler (body : StatsBody) (upstream : StatsParams → UpstreamOutcome) :
    HttpResponse × List StatsParams :=
  if !jsTruthy body.field || !jsTruthy body.aggregation then
    (⟨400, formatError "Field and aggregation are required" 400⟩, [])
  else if !validAggregations.contains (body.aggregation.getD "") then
    (⟨400, formatError ("Invalid aggregation. Must be one of: " ++
        joinComma validAggregations) 400⟩, [])
  else
    let params := buildStatsParams (body.field.getD "") (body.aggregation.getD "")
      body.groupBy body.filter
    match upstream params with
    | .ok d =>
      (⟨200, .statsSuccess d ⟨body.field, body.aggregation, body.groupBy, body.filter⟩⟩,
       [params])
    | .err e =>
      (⟨500, formatError (jsOrStr e.respMessage "Failed to calculate statistics")
                         (jsOrNat e.respStatus 500)⟩, [params])

/-! ### Helper lemmas -/

/-- When the limit passes validation, the search handler issues exactly one
outbound call, with the translated parameters. -/
lemma searchHandler_calls (body : SearchBody) (f : SearchParams → UpstreamOutcome)
    (h : body.limit.getD 10 ≤ 100) :
    (searchHandler body f).2 =
      [buildSearchParams (body.query.getD "") (body.state.getD "") (body.city.getD "")
        (body.limit.getD 10) (body.offset.getD 0)] := by
  simp only [searchHandler]
  rw [if_neg (not_lt.mpr h)]
  cases f (buildSearchParams (body.query.getD "") (body.state.getD "")
      (body.city.getD "") (body.limit.getD 10) (body.offset.getD 0)) <;> rfl

/-- A string that passes the aggregation allow-list is non-empty, hence
truthy. -/
lemma jsTruthy_of_contains (o : Option String)
    (h : validAggregations.contains (o.getD "") = true) : jsTruthy o = true := by
  have hne : o.getD "" ≠ "" := by
    intro hh
    rw [hh] at h
    exact absurd h (by decide)
  simpa [jsTruthy, bne_iff_ne] using hne

/-- When both required inputs are truthy and the aggregation is valid, the
statistics handler issues exactly one outbound call, with the translated
parameters. -/
lemma statisticsHandler_calls (body : StatsBody) (f : StatsParams → UpstreamOutcome)
    (h1 : jsTruthy body.field = true)
    (h3 : validAggregations.contains (body.aggregation.getD "") = true) :
    (statisticsHandler body f).2 =
      [buildStatsParams (body.field.getD "") (body.aggregation.getD "")
        body.groupBy body.filter] := by
  have h2 := jsTruthy_of_contains body.aggregation h3
  simp only [statisticsHandler, h1, h2, h3, Bool.not_true, Bool.or_self, Bool.false_or,
    if_false, ite_false, Bool.false_eq_true]
  cases f (buildStatsParams (body.field.getD "") (body.aggregation.getD "")
      body.groupBy body.filter) <;> rfl

/-! ### Claim theorems -/

/-- Claim C1, counterexample: a search request whose upstream call throws
with status 403 and message `"Forbidden"` is answered with HTTP status 500
while the envelope's `error.status` is 403 — the HTTP status does not
equal `error.status`, refuting the claim at this concrete input. -/
theorem search_failure_status_mismatch :
    (searchHandler ⟨none, none, none, none, none⟩
        (fun _ => .err ⟨some 403, some "Forbidden"⟩)).1.status = 500 ∧
    (searchHandler ⟨none, none, none, none, none⟩
        (fun _ => .err ⟨some 403, some "Forbidden"⟩)).1.body =
      formatError "Forbidden" 403 ∧
    (searchHandler ⟨none, none, none, none, none⟩
        (fun _ => .err ⟨some 403, some "Forbidden"⟩)).1.status ≠ 403 := by
  decide

/-- Claim C1, amended: a validation failure is answered with HTTP status
400 and `error.status` 400 (mirrored); when an upstream call throws in the
search or statistics handler, `error.status` is the upstream status if
present (else 500) and the message is the upstream message if present
(else generic), but the HTTP status of the response is always 500 — so the
HTTP status equals `error.status` only when the upstream status is absent
or itself 500. -/
theorem failure_envelope_status (b1 b2 : SearchBody) (sb : StatsBody) (e : UpstreamError)
    (fs : SearchParams → UpstreamOutcome)
    (h1 : b1.limit.getD 10 > 100) (h2 : b2.limit.getD 10 ≤ 100)
    (hf : jsTruthy sb.field = true)
    (hv : validAggregations.contains (sb.aggregation.getD "") = true) :
    (searchHandler b1 fs).1 = ⟨400, formatError "Limit cannot exceed 100" 400⟩ ∧
    (searchHandler b2 (fun _ => .err e)).1 =
      ⟨500, formatError (jsOrStr e.respMessage "Failed to search universities")
                        (jsOrNat e.respStatus 500)⟩ ∧
    (statisticsHandler sb (fun _ => .err e)).1 =
      ⟨500, formatError (jsOrStr e.respMessage "Failed to calculate statistics")
                        (jsOrNat e.respStatus 500)⟩ := by
  refine ⟨?_, ?_, ?_⟩
  · simp only [searchHandler]
    rw [if_pos h1]
  · simp only [searchHandler]
    rw [if_neg (not_lt.mpr h2)]
  · have ha := jsTruthy_of_contains sb.aggregation hv
    simp only [statisticsHandler, hf, ha, hv, Bool.not_true, Bool.or_self, Bool.false_or,
      if_false, ite_false, Bool.false_eq_true]

/-- Claim C1 amended, witness: with limit 200 the validation failure is
400/400; with an upstream throw carrying status 503 and no message, both
the search and statistics handlers answer HTTP 500 with the generic
message and `error.status` 503. -/
theorem failure_envelope_status_witness :
    (searchHandler ⟨none, none, none, some 200, none⟩
        (fun _ => .ok ⟨0, none⟩)).1 = ⟨400, formatError "Limit cannot exceed 100" 400⟩ ∧
    (searchHandler ⟨none, none, none, none, none⟩
        (fun _ => .err ⟨some 503, none⟩)).1 =
      ⟨500, formatError "Failed to search universities" 503⟩ ∧
    (statisticsHandler ⟨some "population", some "sum", none, none⟩
        (fun _ => .err ⟨some 503, none⟩)).1 =
      ⟨500, formatError "Failed to calculate statistics" 503⟩ :=
  failure_envelope_status ⟨none, none, none, some 200, none⟩ ⟨none, none, none, none, none⟩
    ⟨some "population", some "sum", none, none⟩ ⟨some 503, none⟩ (fun _ => .ok ⟨0, none⟩)
    (by decide) (by decide) (by decide) (by decide)

/-- Claim C2: for every search request passing the limit check, exactly
one outbound call is issued; its `where` parameter is the AND-conjunction
of a `state = '<state>'` clause and/or a `city = '<city>'` clause, each
included exactly when its input is non-empty, and entirely absent when
neither is supplied; `q` is set exactly when `query` is non-empty. -/
theorem search_where_and_q (body : SearchBody) (f : SearchParams → UpstreamOutcome)
    (h : body.limit.getD 10 ≤ 100) :
    (searchHandler body f).2 =
      [buildSearchParams (body.query.getD "") (body.state.getD "") (body.city.getD "")
        (body.limit.getD 10) (body.offset.getD 0)] ∧
    (buildSearchParams (body.query.getD "") (body.state.getD "") (body.city.getD "")
        (body.limit.getD 10) (body.offset.getD 0)).where_ =
      (if body.state.getD "" ≠ "" ∧ body.city.getD "" ≠ "" then
        some ("state = '" ++ body.state.getD "" ++ "'" ++ " AND " ++
              ("city = '" ++ body.city.getD "" ++ "'"))
       else if body.state.getD "" ≠ "" then
        some ("state = '" ++ body.state.getD "" ++ "'")
       else if body.city.getD "" ≠ "" then
        some ("city = '" ++ body.city.getD "" ++ "'")
       else none) ∧
    (buildSearchParams (body.query.getD "") (body.state.getD "") (body.city.getD "")
        (body.limit.getD 10) (body.offset.getD 0)).q =
      (if body.query.getD "" ≠ "" then some (body.query.getD "") else none) := by
  refine ⟨searchHandler_calls body f h, ?_, ?_⟩
  · by_cases hs : body.state.getD "" = "" <;> by_cases hc : body.city.getD "" = "" <;>
      simp [buildSearchParams, joinAnd, hs, hc]
  · by_cases hq : body.query.getD "" = "" <;> simp [buildSearchParams, hq]

/-- Claim C2, witness: state `"CA"` and city `"Boston"` yield the
conjunction, and the full-text query is passed through as `q`. -/
theorem search_where_and_q_witness :
    (searchHandler ⟨some "harvard", some "CA", some "Boston", some 10, none⟩
        (fun _ => .ok ⟨0, none⟩)).2 =
      [buildSearchParams "harvard" "CA" "Boston" 10 0] ∧
    (buildSearchParams "harvard" "CA" "Boston" 10 0).where_ =
      some "state = 'CA' AND city = 'Boston'" ∧
    (buildSearchParams "harvard" "CA" "Boston" 10 0).q = some "harvard" :=
  search_where_and_q ⟨some "harvard", some "CA", some "Boston", some 10, none⟩
    (fun _ => .ok ⟨0, none⟩) (by decide)

/-- Claim C4: a search request with limit over 100 is rejected with status
400 and the failure envelope, and no outbound call is issued. -/
theorem search_limit_rejection (body : SearchBody) (f : SearchParams → UpstreamOutcome)
    (h : body.limit.getD 10 > 100) :
    (searchHandler body f).1 = ⟨400, formatError "Limit cannot exceed 100" 400⟩ ∧
    (searchHandler body f).2 = [] := by
  simp only [searchHandler]
  rw [if_pos h]
  exact ⟨rfl, rfl⟩

/-- Claim C4, witness: limit 101 is rejected before any outbound call. -/
theorem search_limit_rejection_witness :
    (searchHandler ⟨none, none, none, some 101, none⟩ (fun _ => .ok ⟨0, none⟩)).1 =
      ⟨400, formatError "Limit cannot exceed 100" 400⟩ ∧
    (searchHandler ⟨none, none, none, some 101, none⟩ (fun _ => .ok ⟨0, none⟩)).2 = [] :=
  search_limit_rejection ⟨none, none, none, some 101, none⟩ (fun _ => .ok ⟨0, none⟩)
    (by decide)

/-- Claim C3: for every statistics request with a non-empty field and a
valid aggregation, exactly one outbound call is issued, and its `select`
parameter is `count(*) as count` (ignoring the field) when the aggregation
is `count`, and otherwise `<agg>(int(<field>)) as <alias>` where the alias
is `average` for `avg` and the aggregation name itself otherwise. -/
theorem statistics_select_expression (field agg : String) (groupBy : Option String)
    (filter : Option (List (String × FilterValue))) (f : StatsParams → UpstreamOutcome)
    (hf : field ≠ "") (hv : validAggregations.contains agg = true) :
    (statisticsHandler ⟨some field, some agg, groupBy, filter⟩ f).2 =
      [buildStatsParams field agg groupBy filter] ∧
    (buildStatsParams field agg groupBy filter).select =
      (if agg = "count" then "count(*) as count"
       else agg ++ "(int(" ++ field ++ ")) as " ++
            (if agg = "avg" then "average" else agg)) := by
  have ht : jsTruthy (some field) = true := by simpa [jsTruthy, bne_iff_ne] using hf
  exact ⟨statisticsHandler_calls ⟨some field, some agg, groupBy, filter⟩ f ht hv, rfl⟩

/-- Claim C3, witness: aggregation `avg` over field `population` produces
the cast-and-alias expression, and `count` ignores the field. -/
theorem statistics_select_expression_witness :
    ((statisticsHandler ⟨some "population", some "avg", none, none⟩
        (fun _ => .ok ⟨0, none⟩)).2 =
      [buildStatsParams "population" "avg" none none] ∧
    (buildStatsParams "population" "avg" none none).select =
      "avg(int(population)) as average") ∧
    ((statisticsHandler ⟨some "population", some "count", none, none⟩
        (fun _ => .ok ⟨0, none⟩)).2 =
      [buildStatsParams "population" "count" none none] ∧
    (buildStatsParams "population" "count" none none).select = "count(*) as count") :=
  ⟨statistics_select_expression "population" "avg" none none (fun _ => .ok ⟨0, none⟩)
      (by decide) (by decide),
   statistics_select_expression "population" "count" none none (fun _ => .ok ⟨0, none⟩)
      (by decide) (by decide)⟩

/-- Claim C5: a statistics request whose `field` or `aggregation` is
falsy, or whose `aggregation` is not in the allow-list, is rejected with
status 400 before any outbound call; a falsy required input yields the
required-inputs message, and an unrecognized aggregation yields the
message listing the five valid aggregation kinds. -/
theorem statistics_validation (body : StatsBody) (f : StatsParams → UpstreamOutcome)
    (h : jsTruthy body.field = false ∨ jsTruthy body.aggregation = false ∨
         validAggregations.contains (body.aggregation.getD "") = false) :
    (statisticsHandler body f).2 = [] ∧
    (statisticsHandler body f).1.status = 400 ∧
    ((jsTruthy body.field = false ∨ jsTruthy body.aggregation = false) →
      (statisticsHandler body f).1.body =
        formatError "Field and aggregation are required" 400) ∧
    (jsTruthy body.field = true → jsTruthy body.aggregation = true →
      (statisticsHandler body f).1.body =
        formatError "Invalid aggregation. Must be one of: count, sum, avg, min, max" 400) := by
  by_cases h1 : jsTruthy body.field = true
  · by_cases h2 : jsTruthy body.aggregation = true
    · have h3 : validAggregations.contains (body.aggregation.getD "") = false := by
        rcases h with h | h | h
        · rw [h1] at h
          exact absurd h (by decide)
        · rw [h2] at h
          exact absurd h (by decide)
        · exact h
      have hb : statisticsHandler body f =
          (⟨400, formatError "Invalid aggregation. Must be one of: count, sum, avg, min, max"
             400⟩, []) := by
        have h3' : body.aggregation.getD "" ∉ validAggregations := by simpa using h3
        simp [statisticsHandler, h1, h2, h3']
        rfl
      simp [hb, h1, h2]
    · have h2' : jsTruthy body.aggregation = false := by
        simpa using h2
      simp [statisticsHandler, h1, h2']
  · have h1' : jsTruthy body.field = false := by
      simpa using h1
    simp [statisticsHandler, h1']

/-- Claim C5, witness: aggregation `median` is rejected before any
outbound call, with the message listing the valid aggregations. -/
theorem statistics_validation_witness :
    (statisticsHandler ⟨some "population", some "median", none, none⟩
        (fun _ => .ok ⟨0, none⟩)).2 = [] ∧
    (statisticsHandler ⟨some "population", some "median", none, none⟩
        (fun _ => .ok ⟨0, none⟩)).1.status = 400 ∧
    ((jsTruthy (some "population") = false ∨ jsTruthy (some "median") = false) →
      (statisticsHandler ⟨some "population", some "median", none, none⟩
        (fun _ => .ok ⟨0, none⟩)).1.body =
        formatError "Field and aggregation are required" 400) ∧
    (jsTruthy (some "population") = true → jsTruthy (some "median") = true →
      (statisticsHandler ⟨some "population", some "median", none, none⟩
        (fun _ => .ok ⟨0, none⟩)).1.body =
        formatError "Invalid aggregation. Must be one of: count, sum, avg, min, max" 400) :=
  statistics_validation ⟨some "population", some "median", none, none⟩
    (fun _ => .ok ⟨0, none⟩) (Or.inr (Or.inr (by decide)))

/-- Claim C6: field discovery produces one descriptor per key; the
inferred type is `date` when the key contains `date` or `time`, else
`number` when the value parses as a JS number, else the value's own
runtime type, and the description replaces underscores with spaces; on the
sample `{name: "Foo U", enrollment_date: "2020-01-01", objectid: "5"}`
this yields `enrollment_date` as `date` and `objectid` as `number`. -/
theorem field_inference_policy (key : String) (v : JValue) (sample : Record) :
    inferField key v =
      ⟨key,
       if strContains key "date" || strContains key "time" then "date"
       else if jsValueIsNumeric v then "number"
       else v.typeof,
       underscoresToSpaces key⟩ ∧
    (extractFields sample).length = sample.length ∧
    extractFields [("name", .jstr "Foo U"), ("enrollment_date", .jstr "2020-01-01"),
                   ("objectid", .jstr "5")] =
      [⟨"name", "string", "name"⟩,
       ⟨"enrollment_date", "date", "enrollment date"⟩,
       ⟨"objectid", "number", "objectid"⟩] :=
  ⟨rfl, by simp [extractFields], by decide⟩

/-- Claim C7: a lookup by id or by name whose upstream call succeeds with
zero records (no `results`, or an empty `results`) is answered with status
404 and the failure envelope with message "University not found". -/
theorem lookup_zero_records_not_found (i nm : String) (d d2 : UpstreamData)
    (hi : i ≠ "") (hn : nm ≠ "")
    (h1 : d.results.getD [] = []) (h2 : d2.results.getD [] = []) :
    (getUniversityHandler (some i) (fun _ => .ok d)).1 =
      ⟨404, formatError "University not found" 404⟩ ∧
    (getUniversityByNameHandler (some nm) (fun _ => .ok d2)).1 =
      ⟨404, formatError "University not found" 404⟩ := by
  constructor
  · have ht : jsTruthy (some i) = true := by simpa [jsTruthy, bne_iff_ne] using hi
    have hcase : d.results = none ∨ d.results = some [] := by
      rcases hres : d.results with _ | l
      · exact Or.inl rfl
      · right
        rw [hres] at h1
        simp only [Option.getD_some] at h1
        rw [h1]
    rcases hcase with hres | hres <;> simp [getUniversityHandler, ht, hres]
  · have ht : jsTruthy (some nm) = true := by simpa [jsTruthy, bne_iff_ne] using hn
    have hcase : d2.results = none ∨ d2.results = some [] := by
      rcases hres : d2.results with _ | l
      · exact Or.inl rfl
      · right
        rw [hres] at h2
        simp only [Option.getD_some] at h2
        rw [h2]
    rcases hcase with hres | hres <;> simp [getUniversityByNameHandler, ht, hres]

/-- Claim C7, witness: an upstream success with an empty result list (by
id) or an absent result list (by name) yields the 404 envelope. -/
theorem lookup_zero_records_not_found_witness :
    (getUniversityHandler (some "1") (fun _ => .ok ⟨0, some []⟩)).1 =
      ⟨404, formatError "University not found" 404⟩ ∧
    (getUniversityByNameHandler (some "Foo University") (fun _ => .ok ⟨3, none⟩)).1 =
      ⟨404, formatError "University not found" 404⟩ :=
  lookup_zero_records_not_found "1" "Foo University" ⟨0, some []⟩ ⟨3, none⟩
    (by decide) (by decide) (by decide) (by decide)

/-- Claim C8: a search request supplying only state `"CA"` and limit 5
against a successful upstream is answered 200 with the upstream payload as
`data` and metadata echoing the upstream total, the defaulted offset 0,
the limit 5, and query parameters `{query: "", state: "CA", city: ""}`;
the single outbound call carries `limit` 5, `offset` 0,
`where` `state = 'CA'` and no `q`. -/
theorem search_state_limit_scenario (d : UpstreamData) :
    searchHandler ⟨none, some "CA", none, some 5, none⟩ (fun _ => .ok d) =
      (⟨200, .searchSuccess d ⟨d.total_count, 0, 5, ⟨"", "CA", ""⟩⟩⟩,
       [⟨5, 0, some "state = 'CA'", none⟩]) := rfl

/-- Claim C9: a search request whose limit passes the only validation
(`limit > 100`) is accepted whatever the limit and offset are — negative,
zero, or non-integer — and they are forwarded unchanged as the outbound
`limit` and `offset` parameters of the single upstream call. -/
theorem search_no_further_validation (body : SearchBody) (f : SearchParams → UpstreamOutcome)
    (h : body.limit.getD 10 ≤ 100) :
    (searchHandler body f).2 =
      [buildSearchParams (body.query.getD "") (body.state.getD "") (body.city.getD "")
        (body.limit.getD 10) (body.offset.getD 0)] ∧
    (buildSearchParams (body.query.getD "") (body.state.getD "") (body.city.getD "")
        (body.limit.getD 10) (body.offset.getD 0)).limit = body.limit.getD 10 ∧
    (buildSearchParams (body.query.getD "") (body.state.getD "") (body.city.getD "")
        (body.limit.getD 10) (body.offset.getD 0)).offset = body.offset.getD 0 :=
  ⟨searchHandler_calls body f h, rfl, rfl⟩

/-- Claim C9, witness: the non-integer negative limit -5/2 and the
negative offset -3 are accepted and forwarded unchanged. -/
theorem search_no_further_validation_witness :
    (searchHandler ⟨none, none, none, some (-(5 : Rat)/2), some (-3)⟩
        (fun _ => .ok ⟨0, none⟩)).2 =
      [buildSearchParams "" "" "" (-(5 : Rat)/2) (-3)] ∧
    (buildSearchParams "" "" "" (-(5 : Rat)/2) (-3)).limit = -(5 : Rat)/2 ∧
    (buildSearchParams "" "" "" (-(5 : Rat)/2) (-3)).offset = -3 :=
  search_no_further_validation ⟨none, none, none, some (-(5 : Rat)/2), some (-3)⟩
    (fun _ => .ok ⟨0, none⟩) (show -(5 : Rat)/2 ≤ 100 by norm_num)

/-- Claim C10: when the upstream call throws with an error response of
status 404, lookup-by-id answers 404 with "University not found" (its
catch special-cases that status), while lookup-by-name has no such special
case and answers through the generic upstream-failure path: HTTP 500 with
the upstream message if present (else the generic fetch-failure message)
and `error.status` 404. -/
theorem lookup_upstream_404_paths (i nm : String) (e : UpstreamError)
    (hi : i ≠ "") (hn : nm ≠ "") (he : e.respStatus = some 404) :
    (getUniversityHandler (some i) (fun _ => .err e)).1 =
      ⟨404, formatError "University not found" 404⟩ ∧
    (getUniversityByNameHandler (some nm) (fun _ => .err e)).1 =
      ⟨500, formatError (jsOrStr e.respMessage "Failed to fetch university details") 404⟩ := by
  constructor
  · have ht : jsTruthy (some i) = true := by simpa [jsTruthy, bne_iff_ne] using hi
    simp [getUniversityHandler, ht, he]
  · have ht : jsTruthy (some nm) = true := by simpa [jsTruthy, bne_iff_ne] using hn
    simp [getUniversityByNameHandler, ht, he, jsOrNat]

/-- Claim C10, witness: an upstream throw with status 404 and no message
gives 404 "University not found" by id, and 500 with the generic message
and `error.status` 404 by name. -/
theorem lookup_upstream_404_paths_witness :
    (getUniversityHandler (some "1") (fun _ => .err ⟨some 404, none⟩)).1 =
      ⟨404, formatError "University not found" 404⟩ ∧
    (getUniversityByNameHandler (some "Foo University")
        (fun _ => .err ⟨some 404, none⟩)).1 =
      ⟨500, formatError "Failed to fetch university details" 404⟩ :=
  lookup_upstream_404_paths "1" "Foo University" ⟨some 404, none⟩
    (by decide) (by decide) rfl

end UniversityMCP
